import Mathlib

/-!
Verification development for the batch transcript-summarizer pipeline
(`src/app.py`).  The Python module is shallowly embedded: the filesystem
is an explicit state (a list of path/content pairs plus a list of
directories), console printing is a log of strings, and the two external
collaborators (the Whisper decode call and the LiteLLM `completion` call)
are parameters of type `String → Except String String` respectively
`List Message → Except String String`; a `.error` value models a raised
exception, which propagates exactly where the Python code lets it.
-/

namespace TranscriptApp

/-- One chat message, as passed to the completion collaborator
(`messages=[...]` in `get_llm_response`). -/
structure Message where
  role : String
  content : String
deriving Repr, DecidableEq

/-- Models Python `str.strip()`: drop leading and trailing whitespace.
(Defined on the character list so that concrete instances reduce.) -/
def pyStrip (s : String) : String :=
  String.mk
    (((s.data.dropWhile Char.isWhitespace).reverse.dropWhile
      Char.isWhitespace).reverse)

/-- Models Python `str.startswith`. -/
def strStartsWith (s pre : String) : Bool :=
  s.data.take pre.data.length == pre.data

/-- Models Python `str.endswith`. -/
def strEndsWith (s suf : String) : Bool :=
  decide (s.data.length ≥ suf.data.length) &&
    s.data.drop (s.data.length - suf.data.length) == suf.data

/-- Drop the first `n` characters of a string (Python slicing `s[n:]`). -/
def strDropChars (s : String) (n : Nat) : String :=
  String.mk (s.data.drop n)

/-- Filesystem state: `files` maps paths to contents (later writes are
prepended, so lookup finds the newest write), `dirs` is the set of
directories that exist. -/
structure FS where
  files : List (String × String)
  dirs : List String
deriving Repr, DecidableEq

/-- Content of the file at path `p`, if one exists (newest write wins). -/
def FS.lookupFile (fs : FS) (p : String) : Option String :=
  (fs.files.find? (fun e => e.1 == p)).map (fun e => e.2)

/-- Does a file exist at `p`? -/
def FS.hasFile (fs : FS) (p : String) : Bool :=
  (fs.lookupFile p).isSome

/-- Does a directory exist at `p`? -/
def FS.hasDir (fs : FS) (p : String) : Bool :=
  fs.dirs.contains p

/-- Models Python `os.path.exists`: true for files and directories. -/
def FS.pathExists (fs : FS) (p : String) : Bool :=
  fs.hasFile p || fs.hasDir p

/-- Models `open(p, 'w').write(c)`: create or overwrite the file at `p`. -/
def FS.write (fs : FS) (p c : String) : FS :=
  { fs with files := (p, c) :: fs.files }

/-- Models `os.makedirs p`. -/
def FS.makedirs (fs : FS) (p : String) : FS :=
  { fs with dirs := p :: fs.dirs }

/-- Models `os.listdir folder`: the names (not paths) of the files and
directories directly inside `folder`. -/
def FS.listdir (fs : FS) (folder : String) : List String :=
  let entryName := fun (p : String) =>
    if strStartsWith p (folder ++ "/") then
      let rest := strDropChars p (folder ++ "/").data.length
      if rest.data.contains '/' || rest == "" then none else some rest
    else none
  fs.files.filterMap (fun e => entryName e.1) ++ fs.dirs.filterMap entryName

/-- Whole program state: the filesystem plus the console output
(`console.print` appends here) and the frozen wall-clock string used by
`time.strftime` in the summary headers (timing is advisory metadata, so a
constant clock suffices for the modelled run). -/
structure World where
  fs : FS
  log : List String
  now : String
deriving Repr, DecidableEq

/-- Models `console.print s`. -/
def World.print (w : World) (s : String) : World :=
  { w with log := w.log ++ [s] }

/-- Filesystem write lifted to the program state. -/
def World.write (w : World) (p c : String) : World :=
  { w with fs := w.fs.write p c }

/-- Directory creation lifted to the program state. -/
def World.makedirs (w : World) (p : String) : World :=
  { w with fs := w.fs.makedirs p }

/-- Truthiness of an optional string argument, as Python evaluates
`if output_dir:` — `None` and the empty string are falsy. -/
def pyTruthy (o : Option String) : Bool :=
  match o with
  | none => false
  | some s => s != ""

/-- Models Python `str.lower` (per-character lowercasing). -/
def pyLower (s : String) : String :=
  String.mk (s.data.map Char.toLower)

/-- Models `os.path.join a b` for the directory arguments used in the
program (no trailing separators, no absolute second argument). -/
def joinPath (a b : String) : String :=
  a ++ "/" ++ b

/-- Models `os.path.basename`: the part of the path after the last slash. -/
def basename (p : String) : String :=
  String.mk ((p.data.reverse.takeWhile (fun c => c ≠ '/')).reverse)

/-- Models `os.path.splitext name [0]` on a basename: drops the extension
that starts at the last dot, where the leading dots of the name never
start an extension. -/
def splitextRoot (name : String) : String :=
  let cs := name.data
  let lead := cs.takeWhile (fun c => c == '.')
  let rest := cs.drop lead.length
  let extRev := rest.reverse.takeWhile (fun c => c ≠ '.')
  if extRev.length == rest.length then name
  else String.mk (lead ++ rest.take (rest.length - extRev.length - 1))

/-- External collaborators and process-wide configuration, read once at
module import in `app.py`: the completion engine behind `litellm.completion`,
the Whisper decode call behind the live `transcribe` definition, and the
`PROMPT` constant imported from `prompt.py`. -/
structure Ctx where
  completionFn : List Message → Except String String
  decodeFn : String → Except String String
  PROMPT : String

/-- The message list that `get_llm_response text` passes to the completion
collaborator: a single user message whose content is the module-level
`PROMPT` constant (the `text` argument does not appear in it). -/
def llmRequest (ctx : Ctx) (text : String) : List Message :=
  [{ role := "user", content := ctx.PROMPT }]

/-- Embedding of `get_llm_response` (src/app.py lines 15-32): invoke the
completion collaborator on the request built from `text` and strip the
first choice's content. -/
def get_llm_response (ctx : Ctx) (text : String) : Except String String :=
  (ctx.completionFn (llmRequest ctx text)).map pyStrip

/-- Embedding of the live `transcribe` definition (src/app.py lines 49-53,
the second `def transcribe`, which shadows the first): invoke the decode
collaborator and strip the resulting text. -/
def transcribe (ctx : Ctx) (audio : String) : Except String String :=
  (ctx.decodeFn audio).map pyStrip

/-- Embedding of `process_audio_file` (src/app.py lines 55-111): transcribe,
generate the response, and only then — when `output_dir` is truthy — write
the two artifact files.  A `.error` from either stage propagates to the
caller with no file written. -/
def process_audio_file (ctx : Ctx) (file_path : String)
    (output_dir : Option String) (w : World) :
    World × Except String (String × String) :=
  let w := w.print ("[cyan]Processing file: " ++ file_path)
  match transcribe ctx file_path with
  | .error e => (w, .error e)
  | .ok transcription =>
    let w := w.print ("[yellow]Transcription: " ++ transcription)
    match get_llm_response ctx transcription with
    | .error e => (w, .error e)
    | .ok response =>
      let w := w.print ("[cyan]Assistant response: " ++ response)
      if pyTruthy output_dir then
        let od := output_dir.getD ""
        let w := if w.fs.pathExists od then w else w.makedirs od
        let base := splitextRoot (basename file_path)
        let tpath := joinPath od (base ++ "_transcription.txt")
        let w := w.write tpath transcription
        let w := w.print ("[green]Transcription saved to " ++ tpath)
        let rpath := joinPath od (base ++ "_response.txt")
        let w := w.write rpath response
        let w := w.print ("[green]Response saved to " ++ rpath)
        (w, .ok (transcription, response))
      else
        (w, .ok (transcription, response))

/-- The per-item loop of `process_folder` (src/app.py lines 141-147): each
item runs inside `try`, a raised error is printed and the item is skipped;
a successful result is appended to `results`. -/
def processItems (ctx : Ctx) (output_dir : Option String) :
    List String → World → World × List (String × (String × String))
  | [], w => (w, [])
  | fp :: rest, w =>
    let step := process_audio_file ctx fp output_dir w
    match step.2 with
    | .ok r =>
      let res := processItems ctx output_dir rest step.1
      (res.1, (fp, r) :: res.2)
    | .error e =>
      let w := step.1.print ("[red]Error processing " ++ fp ++ ": " ++ e)
      processItems ctx output_dir rest w

/-- The candidate list of `process_folder` (src/app.py lines 131-132):
every `os.listdir` name whose lowercasing is truthy, joined to the
folder path. -/
def wavFiles (folder_path : String) (fs : FS) : List String :=
  ((fs.listdir folder_path).filter (fun f => pyLower f != "")).map
    (fun f => joinPath folder_path f)

/-- Body of the audio-mode summary file (src/app.py lines 152-160). -/
def audioSummaryText (folder_path now : String)
    (results : List (String × (String × String))) : String :=
  "Processing summary for folder: " ++ folder_path ++ "\n" ++
  "Processed at: " ++ now ++ "\n" ++
  "Total files processed: " ++ toString results.length ++ "\n\n" ++
  String.join (results.map (fun r =>
    "File: " ++ basename r.1 ++ "\n" ++
    "Transcription: " ++ r.2.1 ++ "\n" ++
    "Response: " ++ r.2.2 ++ "\n\n"))

/-- Body of `process_folder` after the folder-existence check and the
output-directory creation (src/app.py lines 130-164): discovery, the
per-item loop, and the summary write.  Returns `none` when the candidate
list is empty, and the accumulated `results` list otherwise. -/
def process_folder_body (ctx : Ctx) (folder_path : String)
    (output_dir : Option String) (w : World) :
    World × Option (List (String × (String × String))) :=
  let wav_files := wavFiles folder_path w.fs
  if wav_files.isEmpty then
    (w.print ("[yellow]No .wav files found in " ++ folder_path), none)
  else
    let w := w.print ("[blue]Found " ++ toString wav_files.length ++
      " .wav files in " ++ folder_path)
    let res := processItems ctx output_dir wav_files w
    if pyTruthy output_dir && !res.2.isEmpty then
      let spath := joinPath (output_dir.getD "") "processing_summary.txt"
      let w := res.1.write spath (audioSummaryText folder_path res.1.now res.2)
      let w := w.print ("[green]Summary saved to " ++ spath)
      (w, some res.2)
    else
      (res.1, some res.2)

/-- Embedding of `process_folder` (src/app.py lines 114-164). -/
def process_folder (ctx : Ctx) (folder_path : String)
    (output_dir : Option String) (w : World) :
    World × Option (List (String × (String × String))) :=
  if !(w.fs.pathExists folder_path) then
    (w.print ("[red]Folder " ++ folder_path ++ " does not exist."), none)
  else
    process_folder_body ctx folder_path output_dir
      (if pyTruthy output_dir && !(w.fs.pathExists (output_dir.getD "")) then
        w.makedirs (output_dir.getD "")
      else w)

/-- The per-item loop of `process_text_files` (src/app.py lines 202-236):
missing files and non-`.txt` files are skipped with a message; the `try`
block reads the file, generates the response, saves it when `output_dir`
is truthy, and appends to `results`; a raised error is printed and the
item is skipped. -/
def processTextItems (ctx : Ctx) (output_dir : Option String) :
    List String → World → World × List (String × (String × String))
  | [], w => (w, [])
  | fp :: rest, w =>
    if !(w.fs.pathExists fp) then
      let w := w.print ("[red]File " ++ fp ++ " does not exist.")
      processTextItems ctx output_dir rest w
    else if !(strEndsWith (pyLower fp) ".txt") then
      let w := w.print ("[yellow]File " ++ fp ++ " is not a text file. Skipping.")
      processTextItems ctx output_dir rest w
    else
      let w := w.print ("[cyan]Processing text file: " ++ fp)
      match w.fs.lookupFile fp with
      | none =>
        let w := w.print ("[red]Error processing " ++ fp ++
          ": not a readable file")
        processTextItems ctx output_dir rest w
      | some raw =>
        let text := pyStrip raw
        let w := w.print ("[yellow]Text content: " ++ text)
        match get_llm_response ctx text with
        | .error e =>
          let w := w.print ("[red]Error processing " ++ fp ++ ": " ++ e)
          processTextItems ctx output_dir rest w
        | .ok response =>
          let w := w.print ("[cyan]Assistant response: " ++ response)
          let w :=
            if pyTruthy output_dir then
              let base := splitextRoot (basename fp)
              let rpath := joinPath (output_dir.getD "")
                (base ++ "_response.txt")
              let w := w.write rpath response
              w.print ("[green]Response saved to " ++ rpath)
            else w
          let res := processTextItems ctx output_dir rest w
          (res.1, (fp, text, response) :: res.2)

/-- Body of the text-mode summary file (src/app.py lines 241-249). -/
def textSummaryText (now : String)
    (results : List (String × (String × String))) : String :=
  "Text processing summary\n" ++
  "Processed at: " ++ now ++ "\n" ++
  "Total files processed: " ++ toString results.length ++ "\n\n" ++
  String.join (results.map (fun r =>
    "File: " ++ basename r.1 ++ "\n" ++
    "Text: " ++ r.2.1 ++ "\n" ++
    "Response: " ++ r.2.2 ++ "\n\n"))

/-- Body of `process_text_files` after the output-directory creation
(src/app.py lines 200-253): the per-item loop and the summary write. -/
def process_text_body (ctx : Ctx) (file_paths : List String)
    (output_dir : Option String) (w : World) :
    World × List (String × (String × String)) :=
  let res := processTextItems ctx output_dir file_paths w
  if pyTruthy output_dir && !res.2.isEmpty then
    let spath := joinPath (output_dir.getD "") "text_processing_summary.txt"
    let w := res.1.write spath (textSummaryText res.1.now res.2)
    let w := w.print ("[green]Summary saved to " ++ spath)
    (w, res.2)
  else
    res

/-- Embedding of `process_text_files` (src/app.py lines 189-253). -/
def process_text_files (ctx : Ctx) (file_paths : List String)
    (output_dir : Option String) (w : World) :
    World × List (String × (String × String)) :=
  process_text_body ctx file_paths output_dir
    (if pyTruthy output_dir && !(w.fs.pathExists (output_dir.getD "")) then
      w.makedirs (output_dir.getD "")
    else w)

/-- Did both stages of one audio item succeed?  (This is exactly the
condition under which `process_audio_file` returns instead of raising;
it depends only on the collaborators, not on the filesystem.) -/
def itemOk (ctx : Ctx) (fp : String) : Bool :=
  match transcribe ctx fp with
  | .error _ => false
  | .ok t =>
    match get_llm_response ctx t with
    | .error _ => false
    | .ok _ => true

/-- The error message text an audio item raises when it fails (dummy
value on success); used to state what the orchestrator prints. -/
def itemErr (ctx : Ctx) (fp : String) : String :=
  match transcribe ctx fp with
  | .error e => e
  | .ok t =>
    match get_llm_response ctx t with
    | .error e => e
    | .ok _ => ""

/-- Stage outcome of one audio item: `some (transcription, response)` when
both stages succeed, `none` when either raises.  Depends only on the
collaborators, never on the filesystem. -/
def itemOutcome (ctx : Ctx) (fp : String) : Option (String × String) :=
  match transcribe ctx fp with
  | .error _ => none
  | .ok t =>
    match get_llm_response ctx t with
    | .error _ => none
    | .ok r => some (t, r)

/-- What one text-mode item leaves at its response-artifact path, as a
function of the input file's content (`content`) and whatever was at the
artifact path before (`prev`); used to state text-mode idempotence. -/
def textRespContent (ctx : Ctx) (fp : String) (content prev : Option String) :
    Option String :=
  match content with
  | none => prev
  | some c =>
    if strEndsWith (pyLower fp) ".txt" then
      match get_llm_response ctx (pyStrip c) with
      | .ok r => some r
      | .error _ => prev
    else prev

/-- Scenario collaborators: the decode succeeds, the completion
collaborator always raises. -/
def ctxC2 : Ctx :=
  { completionFn := fun _ => .error "completion unavailable",
    decodeFn := fun _ => .ok "halo dunia",
    PROMPT := "Summarize the transcript." }

/-- Scenario collaborators: both stages always succeed. -/
def ctxAllOk : Ctx :=
  { completionFn := fun _ => .ok "RESP",
    decodeFn := fun _ => .ok "halo dunia",
    PROMPT := "P" }

/-- Scenario collaborators: decoding fails for every file except
`input/a.wav`. -/
def ctxFailB : Ctx :=
  { completionFn := fun _ => .ok "RESP",
    decodeFn := fun p =>
      if p == "input/a.wav" then .ok "T" else .error "corrupt audio",
    PROMPT := "P" }

/-- Scenario collaborators: decoding fails for `input/a.wav` only. -/
def ctxFailA : Ctx :=
  { completionFn := fun _ => .ok "RESP",
    decodeFn := fun p =>
      if p == "input/a.wav" then .error "corrupt audio" else .ok "T",
    PROMPT := "P" }

/-- Scenario state: one audio file in the input folder. -/
def wC2 : World :=
  { fs := { files := [("input/a.wav", "RIFF")], dirs := ["input"] },
    log := [], now := "t0" }

/-- Scenario state: one audio file, nothing else. -/
def wOneWav : World :=
  { fs := { files := [("input/a.wav", "AUDIO")], dirs := ["input"] },
    log := [], now := "t0" }

/-- Scenario state: two audio files in the input folder. -/
def wTwoWav : World :=
  { fs :=
      { files := [("input/a.wav", "A"), ("input/b.wav", "B")],
        dirs := ["input"] },
    log := [], now := "t0" }

/-- Scenario state: one text file. -/
def wNote : World :=
  { fs := { files := [("note.txt", " hi ")], dirs := [] },
    log := [], now := "t0" }

/-- Scenario state: one audio file and one text file. -/
def wMixed : World :=
  { fs :=
      { files := [("input/a.wav", "A"), ("note.txt", " hi ")],
        dirs := ["input"] },
    log := [], now := "t0" }

/-! ### Helper lemmas -/

theorem World.fs_print (w : World) (s : String) : (w.print s).fs = w.fs :=
  rfl

theorem pyLower_ne_empty (s : String) (h : s ≠ "") : pyLower s ≠ "" := by
  intro he
  apply h
  have hd := congrArg String.data he
  simp [pyLower] at hd
  exact String.ext (by simp [hd])

theorem string_append_left_cancel {a b c : String} (h : a ++ b = a ++ c) :
    b = c := by
  have hd := congrArg String.data h
  simp only [String.data_append] at hd
  exact String.ext (List.append_cancel_left hd)

theorem ne_of_suffix_mismatch (b suf tgt : String)
    (h : tgt.data.drop (tgt.data.length - suf.data.length) ≠ suf.data) :
    b ++ suf ≠ tgt := by
  intro he
  apply h
  have hd := congrArg String.data he
  rw [String.data_append] at hd
  have hlen : b.data.length = tgt.data.length - suf.data.length := by
    have hl := congrArg List.length hd
    simp only [List.length_append] at hl
    omega
  rw [← hlen, ← hd, List.drop_left]

theorem FS.lookupFile_write (fs : FS) (p c q : String) :
    (fs.write p c).lookupFile q =
      if p = q then some c else fs.lookupFile q := by
  by_cases h : p = q <;>
    simp [FS.write, FS.lookupFile, List.find?_cons, h]

theorem FS.lookupFile_makedirs (fs : FS) (d q : String) :
    (fs.makedirs d).lookupFile q = fs.lookupFile q := rfl

theorem artifactT_ne_audio_summary (d base : String) :
    joinPath d (base ++ "_transcription.txt") ≠
      joinPath d "processing_summary.txt" := by
  intro h
  unfold joinPath at h
  have h2 := string_append_left_cancel h
  exact ne_of_suffix_mismatch base "_transcription.txt"
    "processing_summary.txt" (by decide) h2

theorem artifactR_ne_audio_summary (d base : String) :
    joinPath d (base ++ "_response.txt") ≠
      joinPath d "processing_summary.txt" := by
  intro h
  unfold joinPath at h
  have h2 := string_append_left_cancel h
  exact ne_of_suffix_mismatch base "_response.txt"
    "processing_summary.txt" (by decide) h2

theorem artifactR_ne_text_summary (d base : String) :
    joinPath d (base ++ "_response.txt") ≠
      joinPath d "text_processing_summary.txt" := by
  intro h
  unfold joinPath at h
  have h2 := string_append_left_cancel h
  exact ne_of_suffix_mismatch base "_response.txt"
    "text_processing_summary.txt" (by decide) h2

theorem and_not_isEmpty {α : Type} (a : Bool) (l : List α)
    (ha : a = true) (hne : l ≠ []) : (a && !l.isEmpty) = true := by
  subst ha
  cases l with
  | nil => exact absurd rfl hne
  | cons x xs => rfl

theorem and_not_isEmpty_elim {α : Type} (a : Bool) (l : List α)
    (h : (a && !l.isEmpty) = true) : a = true ∧ l ≠ [] := by
  cases a with
  | false => simp at h
  | true =>
    cases l with
    | nil => simp at h
    | cons x xs => exact ⟨rfl, by simp⟩

/-! ### Behaviour of the per-item audio loop -/

theorem process_audio_file_fs_none (ctx : Ctx) (fp : String) (w : World) :
    (process_audio_file ctx fp none w).1.fs = w.fs := by
  cases ht : transcribe ctx fp with
  | error e => simp [process_audio_file, ht, World.print]
  | ok t =>
    cases he : get_llm_response ctx t with
    | error e => simp [process_audio_file, ht, he, World.print]
    | ok r => simp [process_audio_file, ht, he, World.print, pyTruthy]

theorem process_audio_file_result (ctx : Ctx) (fp : String)
    (od : Option String) (w : World) :
    (process_audio_file ctx fp od w).2 =
      match itemOutcome ctx fp with
      | some p => .ok p
      | none => .error (itemErr ctx fp) := by
  cases ht : transcribe ctx fp with
  | error e => simp [process_audio_file, itemOutcome, itemErr, ht]
  | ok t =>
    cases hl : get_llm_response ctx t with
    | error e => simp [process_audio_file, itemOutcome, itemErr, ht, hl]
    | ok r =>
      simp [process_audio_file, itemOutcome, itemErr, ht, hl, apply_ite]

theorem processItems_results (ctx : Ctx) (od : Option String)
    (files : List String) (w : World) :
    (processItems ctx od files w).2 =
      files.filterMap
        (fun fp => (itemOutcome ctx fp).map (fun p => (fp, p))) := by
  induction files generalizing w with
  | nil => rfl
  | cons fp rest ih =>
    simp only [processItems, process_audio_file_result]
    cases ho : itemOutcome ctx fp <;>
      simp [ho, List.filterMap_cons, ih]

theorem itemOk_eq_isSome (ctx : Ctx) (fp : String) :
    itemOk ctx fp = (itemOutcome ctx fp).isSome := by
  unfold itemOk itemOutcome
  cases transcribe ctx fp with
  | error e => rfl
  | ok t => cases hl : get_llm_response ctx t <;> simp [hl]

theorem itemOutcome_none_of_fail (ctx : Ctx) (fp : String)
    (hfail : itemOk ctx fp = false) : itemOutcome ctx fp = none := by
  rw [itemOk_eq_isSome] at hfail
  cases h : itemOutcome ctx fp <;> simp [h] at hfail ⊢

theorem processItems_paths (ctx : Ctx) (od : Option String)
    (files : List String) (w : World) :
    (processItems ctx od files w).2.map Prod.fst =
      files.filter (fun fp => itemOk ctx fp) := by
  rw [processItems_results]
  have hfun : (fun fp => itemOk ctx fp) =
      (fun fp => (itemOutcome ctx fp).isSome) :=
    funext (fun fp => itemOk_eq_isSome ctx fp)
  rw [hfun]
  induction files with
  | nil => rfl
  | cons fp rest ih =>
    simp only [List.filterMap_cons, List.filter_cons]
    cases ho : itemOutcome ctx fp <;> simp [ho, ih]

theorem process_audio_file_log (ctx : Ctx) (fp : String)
    (od : Option String) (w : World) :
    ∃ s, (process_audio_file ctx fp od w).1.log = w.log ++ s := by
  cases ht : transcribe ctx fp with
  | error e =>
    exact ⟨["[cyan]Processing file: " ++ fp],
      by simp [process_audio_file, ht, World.print]⟩
  | ok t =>
    cases hl : get_llm_response ctx t with
    | error e =>
      exact ⟨["[cyan]Processing file: " ++ fp,
        "[yellow]Transcription: " ++ t],
        by simp [process_audio_file, ht, hl, World.print]⟩
    | ok r =>
      by_cases hp : pyTruthy od = true
      · refine ⟨["[cyan]Processing file: " ++ fp,
          "[yellow]Transcription: " ++ t,
          "[cyan]Assistant response: " ++ r,
          "[green]Transcription saved to " ++ joinPath (od.getD "")
            (splitextRoot (basename fp) ++ "_transcription.txt"),
          "[green]Response saved to " ++ joinPath (od.getD "")
            (splitextRoot (basename fp) ++ "_response.txt")], ?_⟩
        simp only [process_audio_file, ht, hl, hp, if_true]
        split <;>
          simp [World.print, World.write, World.makedirs, List.append_assoc]
      · exact ⟨["[cyan]Processing file: " ++ fp,
          "[yellow]Transcription: " ++ t,
          "[cyan]Assistant response: " ++ r],
          by simp [process_audio_file, ht, hl, hp, World.print]⟩

theorem processItems_log_mono (ctx : Ctx) (od : Option String)
    (files : List String) (w : World) :
    ∃ s, (processItems ctx od files w).1.log = w.log ++ s := by
  induction files generalizing w with
  | nil => exact ⟨[], by simp [processItems]⟩
  | cons fp rest ih =>
    obtain ⟨s1, h1⟩ := process_audio_file_log ctx fp od w
    simp only [processItems]
    cases hr : (process_audio_file ctx fp od w).2 with
    | ok r =>
      obtain ⟨s2, h2⟩ := ih (process_audio_file ctx fp od w).1
      exact ⟨s1 ++ s2, by simp [h2, h1, List.append_assoc]⟩
    | error e =>
      obtain ⟨s2, h2⟩ :=
        ih ((process_audio_file ctx fp od w).1.print
          ("[red]Error processing " ++ fp ++ ": " ++ e))
      refine ⟨s1 ++ ("[red]Error processing " ++ fp ++ ": " ++ e) :: s2, ?_⟩
      rw [h2]
      simp [World.print, h1, List.append_assoc]

theorem err_logged (ctx : Ctx) (od : Option String) (files : List String)
    (w : World) (fp : String) (hmem : fp ∈ files)
    (hfail : itemOk ctx fp = false) :
    ("[red]Error processing " ++ fp ++ ": " ++ itemErr ctx fp) ∈
      (processItems ctx od files w).1.log := by
  induction files generalizing w with
  | nil => cases hmem
  | cons g rest ih =>
    rcases List.mem_cons.1 hmem with heq | hmem'
    · subst heq
      have hres := process_audio_file_result ctx fp od w
      rw [itemOutcome_none_of_fail ctx fp hfail] at hres
      simp only [processItems, hres]
      obtain ⟨s, hs⟩ := processItems_log_mono ctx od rest
        ((process_audio_file ctx fp od w).1.print
          ("[red]Error processing " ++ fp ++ ": " ++ itemErr ctx fp))
      rw [hs]
      simp [World.print]
    · simp only [processItems]
      cases hr : (process_audio_file ctx g od w).2 with
      | ok r => exact ih _ hmem'
      | error e => exact ih _ hmem'

/-! ### Filesystem preservation lemmas -/

theorem process_audio_file_preserves (ctx : Ctx) (fp : String)
    (od : Option String) (w : World) (q : String)
    (hq : ∀ base, joinPath (od.getD "") (base ++ "_transcription.txt") ≠ q ∧
                  joinPath (od.getD "") (base ++ "_response.txt") ≠ q) :
    (process_audio_file ctx fp od w).1.fs.lookupFile q =
      w.fs.lookupFile q := by
  cases ht : transcribe ctx fp with
  | error e => simp [process_audio_file, ht, World.print]
  | ok t =>
    cases hl : get_llm_response ctx t with
    | error e => simp [process_audio_file, ht, hl, World.print]
    | ok r =>
      by_cases hp : pyTruthy od = true
      · simp only [process_audio_file, ht, hl, hp, if_true]
        have hT := (hq (splitextRoot (basename fp))).1
        have hR := (hq (splitextRoot (basename fp))).2
        split <;>
          simp [World.print, World.write, World.makedirs,
            FS.lookupFile_write, FS.lookupFile_makedirs, hT, hR]
      · simp [process_audio_file, ht, hl, hp, World.print]

theorem processItems_preserves (ctx : Ctx) (od : Option String)
    (files : List String) (w : World) (q : String)
    (hq : ∀ base, joinPath (od.getD "") (base ++ "_transcription.txt") ≠ q ∧
                  joinPath (od.getD "") (base ++ "_response.txt") ≠ q) :
    (processItems ctx od files w).1.fs.lookupFile q =
      w.fs.lookupFile q := by
  induction files generalizing w with
  | nil => rfl
  | cons fp rest ih =>
    simp only [processItems]
    cases hr : (process_audio_file ctx fp od w).2 with
    | ok r =>
      rw [ih]
      exact process_audio_file_preserves ctx fp od w q hq
    | error e =>
      rw [ih]
      exact process_audio_file_preserves ctx fp od w q hq

theorem processTextItems_preserves (ctx : Ctx) (od : Option String)
    (files : List String) (w : World) (q : String)
    (hq : ∀ base, joinPath (od.getD "") (base ++ "_response.txt") ≠ q) :
    (processTextItems ctx od files w).1.fs.lookupFile q =
      w.fs.lookupFile q := by
  induction files generalizing w with
  | nil => rfl
  | cons fp rest ih =>
    simp only [processTextItems]
    split
    · rw [ih]; rfl
    · split
      · rw [ih]; rfl
      · split
        · rw [ih]; rfl
        · split
          · rw [ih]; rfl
          · rw [ih]
            split
            · simp [World.print, World.write, FS.lookupFile_write,
                hq (splitextRoot (basename fp))]
            · rfl

theorem processTextItems_fs_falsy (ctx : Ctx) (od : Option String)
    (files : List String) (w : World) (h : pyTruthy od = false) :
    (processTextItems ctx od files w).1.fs = w.fs := by
  induction files generalizing w with
  | nil => rfl
  | cons fp rest ih =>
    simp only [processTextItems, h, Bool.false_eq_true, if_false]
    repeat
      (first
        | rw [ih]
        | rfl
        | split)

theorem process_text_files_fs_falsy (ctx : Ctx) (files : List String)
    (od : Option String) (w : World) (h : pyTruthy od = false) :
    (process_text_files ctx files od w).1.fs = w.fs := by
  simp [process_text_files, process_text_body, h,
    processTextItems_fs_falsy ctx od files w h]

theorem summary_iff_folder_body (ctx : Ctx) (folder : String)
    (od : Option String) (w1 : World)
    (h1 : w1.fs.lookupFile
      (joinPath (od.getD "") "processing_summary.txt") = none) :
    (process_folder_body ctx folder od w1).1.fs.hasFile
        (joinPath (od.getD "") "processing_summary.txt") = true ↔
      (pyTruthy od = true ∧
        ∃ rs, (process_folder_body ctx folder od w1).2 = some rs ∧
          rs ≠ []) := by
  have hq : ∀ base,
      joinPath (od.getD "") (base ++ "_transcription.txt") ≠
        joinPath (od.getD "") "processing_summary.txt" ∧
      joinPath (od.getD "") (base ++ "_response.txt") ≠
        joinPath (od.getD "") "processing_summary.txt" :=
    fun base =>
      ⟨artifactT_ne_audio_summary _ base, artifactR_ne_audio_summary _ base⟩
  simp only [process_folder_body]
  split
  · simp [FS.hasFile, World.print, h1]
  · split
    · rename_i hc2
      have he := and_not_isEmpty_elim _ _ hc2
      constructor
      · intro _
        exact ⟨he.1, _, rfl, he.2⟩
      · intro _
        simp [FS.hasFile, World.print, World.write, FS.lookupFile_write]
    · rename_i hc2
      constructor
      · intro hh
        exfalso
        rw [FS.hasFile, processItems_preserves ctx od _ _ _ hq] at hh
        simp [World.print, h1] at hh
      · rintro ⟨hpt, rs, hrs, hne⟩
        exfalso
        injection hrs with hrs2
        subst hrs2
        exact hc2 (and_not_isEmpty _ _ hpt hne)

theorem summary_iff_text_body (ctx : Ctx) (files : List String)
    (od : Option String) (w1 : World)
    (h1 : w1.fs.lookupFile
      (joinPath (od.getD "") "text_processing_summary.txt") = none) :
    (process_text_body ctx files od w1).1.fs.hasFile
        (joinPath (od.getD "") "text_processing_summary.txt") = true ↔
      (pyTruthy od = true ∧ (process_text_body ctx files od w1).2 ≠ []) := by
  have hq : ∀ base,
      joinPath (od.getD "") (base ++ "_response.txt") ≠
        joinPath (od.getD "") "text_processing_summary.txt" :=
    fun base => artifactR_ne_text_summary _ base
  simp only [process_text_body]
  split
  · rename_i hc2
    have he := and_not_isEmpty_elim _ _ hc2
    constructor
    · intro _
      exact ⟨he.1, he.2⟩
    · intro _
      simp [FS.hasFile, World.print, World.write, FS.lookupFile_write]
  · rename_i hc2
    constructor
    · intro hh
      exfalso
      rw [FS.hasFile, processTextItems_preserves ctx od _ _ _ hq] at hh
      simp [h1] at hh
    · rintro ⟨hpt, hne⟩
      exact absurd (and_not_isEmpty _ _ hpt hne) hc2

theorem summary_iff_folder (ctx : Ctx) (folder : String)
    (od : Option String) (w : World)
    (h0 : w.fs.lookupFile
      (joinPath (od.getD "") "processing_summary.txt") = none) :
    (process_folder ctx folder od w).1.fs.hasFile
        (joinPath (od.getD "") "processing_summary.txt") = true ↔
      (pyTruthy od = true ∧
        ∃ rs, (process_folder ctx folder od w).2 = some rs ∧ rs ≠ []) := by
  simp only [process_folder]
  split
  · simp [FS.hasFile, World.print, h0]
  · apply summary_iff_folder_body
    split
    · simp [World.makedirs, FS.lookupFile_makedirs, h0]
    · exact h0

theorem summary_iff_text (ctx : Ctx) (files : List String)
    (od : Option String) (w : World)
    (h0 : w.fs.lookupFile
      (joinPath (od.getD "") "text_processing_summary.txt") = none) :
    (process_text_files ctx files od w).1.fs.hasFile
        (joinPath (od.getD "") "text_processing_summary.txt") = true ↔
      (pyTruthy od = true ∧ (process_text_files ctx files od w).2 ≠ []) := by
  simp only [process_text_files]
  apply summary_iff_text_body
  split
  · simp [World.makedirs, FS.lookupFile_makedirs, h0]
  · exact h0



theorem lookupFile_opt_makedirs (w : World) (c : Prop) [Decidable c]
    (d q : String) :
    (if c then w.makedirs d else w).fs.lookupFile q = w.fs.lookupFile q := by
  split <;> rfl

theorem lookupFile_none_of_not_pathExists (fs : FS) (p : String)
    (h : fs.pathExists p = false) : fs.lookupFile p = none := by
  rw [FS.pathExists, FS.hasFile, Bool.or_eq_false_iff] at h
  cases hl : fs.lookupFile p
  · rfl
  · rw [hl] at h
    simp at h

theorem ptf_single_resp_body (ctx : Ctx) (fp d : String) (w1 : World)
    (hd : pyTruthy (some d) = true) :
    (process_text_body ctx [fp] (some d) w1).1.fs.lookupFile
        (joinPath d (splitextRoot (basename fp) ++ "_response.txt")) =
      textRespContent ctx fp (w1.fs.lookupFile fp)
        (w1.fs.lookupFile
          (joinPath d (splitextRoot (basename fp) ++ "_response.txt"))) := by
  have hne2 :=
    (artifactR_ne_text_summary d (splitextRoot (basename fp))).symm
  simp only [process_text_body, processTextItems]
  cases hpe : w1.fs.pathExists fp with
  | false =>
    rw [lookupFile_none_of_not_pathExists _ _ hpe]
    simp [hpe, textRespContent, World.print]
  | true =>
    cases hE : strEndsWith (pyLower fp) ".txt" with
    | false =>
      cases hc : w1.fs.lookupFile fp <;>
        simp [hpe, hE, hc, textRespContent, World.print]
    | true =>
      cases hc : w1.fs.lookupFile fp with
      | none =>
        simp [hpe, hE, hc, textRespContent, World.print]
      | some c =>
        cases hll : get_llm_response ctx (pyStrip c) with
        | error e =>
          simp [hpe, hE, hc, hll, textRespContent, World.print]
        | ok r =>
          simp [hpe, hE, hc, hll, hd, textRespContent, World.print,
            World.write, FS.lookupFile_write, hne2]


theorem ptf_single_resp (ctx : Ctx) (fp d : String) (w : World)
    (hd : pyTruthy (some d) = true) :
    (process_text_files ctx [fp] (some d) w).1.fs.lookupFile
        (joinPath d (splitextRoot (basename fp) ++ "_response.txt")) =
      textRespContent ctx fp (w.fs.lookupFile fp)
        (w.fs.lookupFile
          (joinPath d (splitextRoot (basename fp) ++ "_response.txt"))) := by
  simp only [process_text_files]
  rw [ptf_single_resp_body ctx fp d _ hd, lookupFile_opt_makedirs,
    lookupFile_opt_makedirs]

/-! ### Claims -/

/-- C1: refuted by the code, which contradicts its own docstring — the
request that `get_llm_response` sends to the completion collaborator
contains only the module-level `PROMPT` constant, so the request and the
returned response are independent of the input text; no placeholder
substitution involving `text` takes place. -/
theorem C1_response_ignores_text (ctx : Ctx) (t1 t2 : String) :
    llmRequest ctx t1 = llmRequest ctx t2 ∧
    get_llm_response ctx t1 = get_llm_response ctx t2 :=
  ⟨rfl, rfl⟩

/-- C2 counterexample: the transcription stage succeeds and the response
stage fails, yet after the item finishes no transcription artifact exists
on disk — the filesystem is unchanged — refuting the claim that each
stage's output is persisted as soon as that stage succeeds. -/
theorem C2_counterexample :
    transcribe ctxC2 "input/a.wav" = .ok "halo dunia" ∧
    (process_audio_file ctxC2 "input/a.wav" (some "out") wC2).2 =
      .error "completion unavailable" ∧
    (process_audio_file ctxC2 "input/a.wav" (some "out")
        wC2).1.fs.lookupFile "out/a_transcription.txt" = none ∧
    (process_audio_file ctxC2 "input/a.wav" (some "out") wC2).1.fs = wC2.fs :=
  ⟨rfl, rfl, rfl, rfl⟩

/-- C2 amended: an item's outputs are persisted only after both of its
stages succeed; when the transcription succeeds but the response stage
fails, the error propagates out of `process_audio_file` and nothing at all
is written to disk. -/
theorem C2_persist_only_after_both_stages (ctx : Ctx) (fp : String)
    (od : Option String) (w : World) (t e : String)
    (ht : transcribe ctx fp = .ok t)
    (he : get_llm_response ctx t = .error e) :
    (process_audio_file ctx fp od w).1.fs = w.fs ∧
    (process_audio_file ctx fp od w).2 = .error e := by
  simp [process_audio_file, ht, he, World.print]

/-- C2 witness: the amended theorem applied to the concrete C2 scenario. -/
theorem C2_witness :
    (process_audio_file ctxC2 "input/a.wav" (some "out") wC2).1.fs = wC2.fs ∧
    (process_audio_file ctxC2 "input/a.wav" (some "out") wC2).2 =
      .error "completion unavailable" :=
  C2_persist_only_after_both_stages ctxC2 "input/a.wav" (some "out") wC2
    "halo dunia" "completion unavailable" rfl rfl

/-- C3 counterexample: an item that fully succeeds (both stages succeed,
both artifacts persisted, the item is recorded) leaves the source file at
its original path with its original content, and creates no archive
directory — refuting the claim that the source is relocated out of the
input folder. -/
theorem C3_counterexample :
    (process_folder ctxAllOk "input" (some "out") wOneWav).2 =
      some [("input/a.wav", ("halo dunia", "RESP"))] ∧
    (process_folder ctxAllOk "input" (some "out")
        wOneWav).1.fs.lookupFile "input/a.wav" = some "AUDIO" ∧
    (process_folder ctxAllOk "input" (some "out") wOneWav).1.fs.dirs =
      ["out", "input"] :=
  ⟨rfl, rfl, rfl⟩

/-- C3 amended: `process_folder` performs no archival at all — for a fully
successful item (arbitrary stage outputs and arbitrary audio content) the
source file still exists at its original path with unchanged content after
the run, the only directory created is the output directory, and the item
is recorded as successful. -/
theorem C3_no_archival (t0 r0 P audio now0 : String) (log0 : List String) :
    (process_folder ⟨fun _ => .ok r0, fun _ => .ok t0, P⟩ "input"
        (some "out")
        ⟨⟨[("input/a.wav", audio)], ["input"]⟩, log0, now0⟩).1.fs.lookupFile
      "input/a.wav" = some audio ∧
    (process_folder ⟨fun _ => .ok r0, fun _ => .ok t0, P⟩ "input"
        (some "out")
        ⟨⟨[("input/a.wav", audio)], ["input"]⟩, log0, now0⟩).1.fs.dirs =
      ["out", "input"] ∧
    (process_folder ⟨fun _ => .ok r0, fun _ => .ok t0, P⟩ "input"
        (some "out")
        ⟨⟨[("input/a.wav", audio)], ["input"]⟩, log0, now0⟩).2 =
      some [("input/a.wav", (pyStrip t0, pyStrip r0))] :=
  ⟨rfl, rfl, rfl⟩

/-- C4 counterexample: two candidates enter processing (the run logs
`Found 2 .wav files` and a per-file `Processing file` line for each), the
second one fails during its transcription stage, and the final results
list has one entry — refuting the claim that the report counts every item
that entered processing. -/
theorem C4_counterexample :
    (wavFiles "input" wTwoWav.fs).length = 2 ∧
    (process_folder ctxFailB "input" (some "out") wTwoWav).2.map
      List.length = some 1 ∧
    "[cyan]Processing file: input/b.wav" ∈
      (process_folder ctxFailB "input" (some "out") wTwoWav).1.log ∧
    "[red]Error processing input/b.wav: corrupt audio" ∈
      (process_folder ctxFailB "input" (some "out") wTwoWav).1.log :=
  ⟨rfl, rfl, by decide, by decide⟩

/-- C4 amended: the number of entries in the run's results list equals the
number of processed items whose two stages both succeeded; items that
failed during a stage are excluded along with skipped ones. -/
theorem C4_report_counts_successes_only (ctx : Ctx) (od : Option String)
    (files : List String) (w : World) :
    (processItems ctx od files w).2.length =
      (files.filter (fun fp => itemOk ctx fp)).length := by
  rw [processItems_results]
  have hfun : (fun fp => itemOk ctx fp) =
      (fun fp => (itemOutcome ctx fp).isSome) :=
    funext (fun fp => itemOk_eq_isSome ctx fp)
  rw [hfun]
  induction files with
  | nil => rfl
  | cons fp rest ih =>
    simp only [List.filterMap_cons, List.filter_cons]
    cases ho : itemOutcome ctx fp <;> simp [ho, ih]

/-- C5 counterexample: after a fully successful item, the persisted
transcription artifact is exactly the transcription text and the response
artifact exactly the response text; neither begins with a
`<Stage> Time: ... seconds` annotation. -/
theorem C5_counterexample :
    (process_audio_file ctxAllOk "input/a.wav" (some "out")
        wOneWav).1.fs.lookupFile "out/a_transcription.txt" =
      some "halo dunia" ∧
    strStartsWith "halo dunia" "Transcription" = false ∧
    (process_audio_file ctxAllOk "input/a.wav" (some "out")
        wOneWav).1.fs.lookupFile "out/a_response.txt" = some "RESP" ∧
    strStartsWith "RESP" "Response" = false :=
  ⟨rfl, by decide, rfl, by decide⟩

/-- C5 amended: for any stage outputs, the persisted artifacts consist of
the stage text bodies alone — the transcription artifact holds exactly the
stripped transcription and the response artifact exactly the stripped
response, with no timing annotation prepended. -/
theorem C5_artifacts_have_no_timing_header (t0 r0 P audio now0 : String)
    (log0 : List String) :
    transcribe ⟨fun _ => .ok r0, fun _ => .ok t0, P⟩ "input/a.wav" =
      .ok (pyStrip t0) ∧
    (process_audio_file ⟨fun _ => .ok r0, fun _ => .ok t0, P⟩ "input/a.wav"
        (some "out")
        ⟨⟨[("input/a.wav", audio)], ["input"]⟩, log0, now0⟩).1.fs.lookupFile
      "out/a_transcription.txt" = some (pyStrip t0) ∧
    (process_audio_file ⟨fun _ => .ok r0, fun _ => .ok t0, P⟩ "input/a.wav"
        (some "out")
        ⟨⟨[("input/a.wav", audio)], ["input"]⟩, log0, now0⟩).1.fs.lookupFile
      "out/a_response.txt" = some (pyStrip r0) :=
  ⟨rfl, rfl, rfl⟩

/-- C6: the discovery filter of `process_folder` is Python truthiness of
the lowercased name, which holds for every non-empty name regardless of
extension, so every directory entry with a non-empty name is included as
a candidate whether or not it is an audio file. -/
theorem C6_discovery_accepts_every_name (f folder : String) (fs : FS)
    (hne : f ≠ "") (hmem : f ∈ fs.listdir folder) :
    (pyLower f != "") = true ∧ joinPath folder f ∈ wavFiles folder fs := by
  have hl : pyLower f ≠ "" := pyLower_ne_empty f hne
  refine ⟨by simpa using hl, ?_⟩
  unfold wavFiles
  exact List.mem_map_of_mem _ (List.mem_filter.2 ⟨hmem, by simpa using hl⟩)

/-- C6 witness: a non-audio file (a PDF) passes the filter and is
discovered as a candidate. -/
theorem C6_witness :
    (pyLower "notes.pdf" != "") = true ∧
    joinPath "inbox" "notes.pdf" ∈
      wavFiles "inbox" (FS.mk [("inbox/notes.pdf", "x")] []) :=
  C6_discovery_accepts_every_name "notes.pdf" "inbox"
    (FS.mk [("inbox/notes.pdf", "x")] []) (by decide) (by decide)

/-- C7 counterexample: the first item's failure is caught and logged and
the batch continues to the second item, but no `Failed` entry for the
first item is recorded anywhere — the results list mentions only the
successful second item — refuting the claim that a failure is converted
into a recorded `Failed` status. -/
theorem C7_counterexample :
    (process_folder ctxFailA "input" (some "out") wTwoWav).2 =
      some [("input/b.wav", ("T", "RESP"))] ∧
    "[red]Error processing input/a.wav: corrupt audio" ∈
      (process_folder ctxFailA "input" (some "out") wTwoWav).1.log ∧
    (process_folder ctxFailA "input" (some "out") wTwoWav).2.map
      (List.map Prod.fst) = some ["input/b.wav"] :=
  ⟨rfl, by decide, rfl⟩

/-- C7 amended: a per-item failure is caught at the item boundary — a
human-readable error message naming the item is printed and processing
continues, with every successful item (before or after the failure) still
recorded — but the failed item itself is simply omitted from the results:
no `Failed` record exists. -/
theorem C7_failure_logged_not_recorded (ctx : Ctx) (od : Option String)
    (files : List String) (w : World) (fp : String) (hmem : fp ∈ files)
    (hfail : itemOk ctx fp = false) :
    ("[red]Error processing " ++ fp ++ ": " ++ itemErr ctx fp) ∈
      (processItems ctx od files w).1.log ∧
    fp ∉ (processItems ctx od files w).2.map Prod.fst ∧
    ∀ fq ∈ files, itemOk ctx fq = true →
      fq ∈ (processItems ctx od files w).2.map Prod.fst := by
  refine ⟨err_logged ctx od files w fp hmem hfail, ?_, ?_⟩
  · rw [processItems_paths]
    intro hin
    have hok := (List.mem_filter.1 hin).2
    simp [hfail] at hok
  · intro fq hq hok
    rw [processItems_paths]
    exact List.mem_filter.2 ⟨hq, by simp [hok]⟩

/-- C7 witness: the amended theorem applied to the concrete two-item
scenario in which the first item fails. -/
theorem C7_witness :
    ("[red]Error processing " ++ "input/a.wav" ++ ": " ++
        itemErr ctxFailA "input/a.wav") ∈
      (processItems ctxFailA (some "out")
        ["input/a.wav", "input/b.wav"] wTwoWav).1.log ∧
    "input/a.wav" ∉ (processItems ctxFailA (some "out")
        ["input/a.wav", "input/b.wav"] wTwoWav).2.map Prod.fst ∧
    ∀ fq ∈ ["input/a.wav", "input/b.wav"], itemOk ctxFailA fq = true →
      fq ∈ (processItems ctxFailA (some "out")
        ["input/a.wav", "input/b.wav"] wTwoWav).2.map Prod.fst :=
  C7_failure_logged_not_recorded ctxFailA (some "out")
    ["input/a.wav", "input/b.wav"] wTwoWav "input/a.wav"
    (by decide) (by decide)

/-- C8: in both modes the summary artifact is written if and only if the
output directory argument is truthy (supplied and non-empty, as Python
evaluates it) and at least one item was recorded in the results, provided
no file already sits at the summary path before the run. -/
theorem C8_summary_written_iff (ctx : Ctx) (files : List String)
    (folder : String) (od : Option String) (w : World)
    (h0a : w.fs.lookupFile
      (joinPath (od.getD "") "processing_summary.txt") = none)
    (h0t : w.fs.lookupFile
      (joinPath (od.getD "") "text_processing_summary.txt") = none) :
    ((process_folder ctx folder od w).1.fs.hasFile
        (joinPath (od.getD "") "processing_summary.txt") = true ↔
      (pyTruthy od = true ∧
        ∃ rs, (process_folder ctx folder od w).2 = some rs ∧ rs ≠ [])) ∧
    ((process_text_files ctx files od w).1.fs.hasFile
        (joinPath (od.getD "") "text_processing_summary.txt") = true ↔
      (pyTruthy od = true ∧ (process_text_files ctx files od w).2 ≠ [])) :=
  ⟨summary_iff_folder ctx folder od w h0a,
   summary_iff_text ctx files od w h0t⟩

/-- C8 witness: the theorem applied to a concrete state holding one audio
file and one text file, with the output directory `out`. -/
theorem C8_witness :
    ((process_folder ctxAllOk "input" (some "out") wMixed).1.fs.hasFile
        (joinPath ((some "out" : Option String).getD "")
          "processing_summary.txt") = true ↔
      (pyTruthy (some "out") = true ∧
        ∃ rs, (process_folder ctxAllOk "input" (some "out") wMixed).2 =
          some rs ∧ rs ≠ [])) ∧
    ((process_text_files ctxAllOk ["note.txt"] (some "out")
        wMixed).1.fs.hasFile
        (joinPath ((some "out" : Option String).getD "")
          "text_processing_summary.txt") = true ↔
      (pyTruthy (some "out") = true ∧
        (process_text_files ctxAllOk ["note.txt"] (some "out")
          wMixed).2 ≠ [])) :=
  C8_summary_written_iff ctxAllOk ["note.txt"] "input" (some "out") wMixed
    rfl rfl

/-- C9: text mode is idempotent in its response artifact — re-running it
on the same file (whose content the first run left unchanged) with the
same configuration and the same deterministic collaborators leaves the
identical bytes at the response artifact path. -/
theorem C9_text_mode_idempotent (ctx : Ctx) (fp : String)
    (od : Option String) (w : World)
    (hunmod : (process_text_files ctx [fp] od w).1.fs.lookupFile fp =
      w.fs.lookupFile fp) :
    (process_text_files ctx [fp] od
        (process_text_files ctx [fp] od w).1).1.fs.lookupFile
      (joinPath (od.getD "")
        (splitextRoot (basename fp) ++ "_response.txt")) =
      (process_text_files ctx [fp] od w).1.fs.lookupFile
        (joinPath (od.getD "")
          (splitextRoot (basename fp) ++ "_response.txt")) := by
  cases hod : pyTruthy od with
  | false =>
    rw [process_text_files_fs_falsy ctx [fp] od
      (process_text_files ctx [fp] od w).1 hod]
  | true =>
    cases od with
    | none => simp [pyTruthy] at hod
    | some d =>
      simp only [Option.getD_some]
      rw [ptf_single_resp ctx fp d _ hod, ptf_single_resp ctx fp d w hod,
        hunmod]
      cases hc : w.fs.lookupFile fp with
      | none => simp [textRespContent]
      | some c =>
        simp only [textRespContent]
        cases hE : strEndsWith (pyLower fp) ".txt"
        · simp
        · cases hll : get_llm_response ctx (pyStrip c) <;> simp [hll]

/-- C9 witness: the theorem applied to a concrete text file left unchanged
by the first run. -/
theorem C9_witness :
    (process_text_files ctxAllOk ["note.txt"] (some "out")
        (process_text_files ctxAllOk ["note.txt"] (some "out")
          wNote).1).1.fs.lookupFile
      (joinPath ((some "out" : Option String).getD "")
        (splitextRoot (basename "note.txt") ++ "_response.txt")) =
      (process_text_files ctxAllOk ["note.txt"] (some "out")
        wNote).1.fs.lookupFile
        (joinPath ((some "out" : Option String).getD "")
          (splitextRoot (basename "note.txt") ++ "_response.txt")) :=
  C9_text_mode_idempotent ctxAllOk "note.txt" (some "out") wNote rfl

/-- C10: when no output directory is supplied, neither audio-item
processing nor text-mode processing touches the filesystem — no file and
no directory is created; the results are only computed and returned. -/
theorem C10_no_output_dir_no_persistence (ctx : Ctx) (fp : String)
    (files : List String) (w : World) :
    (process_audio_file ctx fp none w).1.fs = w.fs ∧
    (process_text_files ctx files none w).1.fs = w.fs := by
  refine ⟨process_audio_file_fs_none ctx fp w, ?_⟩
  simp [process_text_files, process_text_body, pyTruthy,
    processTextItems_fs_falsy ctx none files w rfl]

end TranscriptApp
